import Mathlib

/-!
Shallow embedding of the ora terminal-indicator library.

The first part models the `Ora` class of `src/index.js` (options handling,
spinner resolution, `timeTaken`, `frame`, `clear`, `render`, `start`, `stop`,
`stopAndPersist`).  JavaScript `undefined`/absent values are modelled with
`Option`, JavaScript truthiness checks on strings/numbers are modelled
explicitly (`"" `/`0` are falsy), stream side effects are modelled as an
explicit list of `Effect`s, and `Date.now()` is passed in as a `now : Nat`
argument wherever the source calls it.

The second part models the geometry calculator (`rowsFor`) and overflow
guard (`fit`) of the render engine.  Those components are exercised by
`src/test.js` but their implementation file is not part of `src/`, so they
are modelled from the specification text (each such definition is marked
`Modelled from the spec:`).
-/

/-- A spinner object as in the external `cli-spinners` catalog or a
user-supplied `{frames, interval}` object; `framesOpt = none` models a
JavaScript object whose `frames` property is `undefined`, and
`intervalOpt = none` models an absent `interval`. -/
structure Spinner where
  framesOpt : Option (List String)
  intervalOpt : Option Nat
deriving Repr, DecidableEq, Inhabited

/-- Modelled from the spec: the external named frame-set catalog
(`cli-spinners`) is an excluded collaborator; only the two entries the
source mentions (`dots`, `line`) are modelled. -/
def dotsSpinner : Spinner :=
  ⟨some ["⠋", "⠙", "⠹", "⠸", "⠼", "⠴", "⠦", "⠧", "⠇", "⠏"], some 80⟩

/-- Modelled from the spec: the `line` entry of the external catalog,
used by the source on the win32 platform. -/
def lineCatalogSpinner : Spinner :=
  ⟨some ["-", "\\", "|", "/"], some 130⟩

/-- Modelled from the spec: lookup in the external named frame-set catalog;
an unknown name yields `none` (JavaScript `cliSpinners[sp]` is `undefined`). -/
def cliSpinnersLookup (name : String) : Option Spinner :=
  if name = "dots" then some dotsSpinner
  else if name = "line" then some lineCatalogSpinner
  else none

/-- The `spinner` option of the constructor: absent (`undefined`), a string
naming a catalog entry, or an explicit spinner object. -/
inductive SpinnerOption where
  | undef
  | named (name : String)
  | explicit (sp : Spinner)
deriving Repr, DecidableEq

/-- Spinner resolution of `src/index.js` line 24:
`typeof sp === 'object' ? sp : (process.platform === 'win32' ? cliSpinners.line : (cliSpinners[sp] || cliSpinners.dots))`.
An absent option (`undefined`) is not of type `'object'`, so it also falls
through to the platform ternary, where the catalog lookup of `undefined`
yields `undefined` and `dots` is chosen. -/
def resolveSpinner (win32 : Bool) (sp : SpinnerOption) : Spinner :=
  match sp with
  | .explicit s => s
  | .undef => if win32 then lineCatalogSpinner else dotsSpinner
  | .named n => if win32 then lineCatalogSpinner else (cliSpinnersLookup n).getD dotsSpinner

/-- The constructor options after the `Object.assign` defaults of
`src/index.js` lines 15-21.  `color = none` models a falsy `color` option
(e.g. `false`); `interval = none` models an absent `interval`;
`enabled = none` models an `enabled` option that is not a boolean. -/
structure Options where
  text : String := ""
  color : Option String := some "cyan"
  streamIsTTY : Bool := false
  timer : Bool := false
  timerResolution : String := "s"
  spinner : SpinnerOption := .undef
  interval : Option Nat := none
  enabled : Option Bool := none
deriving Repr, DecidableEq

/-- JavaScript `a || b` on an optional number: `undefined` and `0` are falsy. -/
def natOr (a : Option Nat) (b : Nat) : Nat :=
  match a with
  | some n => if n = 0 then b else n
  | none => b

/-- JavaScript `a || b` on an optional string: `undefined` and `""` are falsy. -/
def strOr (a : Option String) (b : String) : String :=
  match a with
  | some v => if v = "" then b else v
  | none => b

/-- The instance state of the `Ora` class of `src/index.js`.

`instTimer` and `instTimerResolution` model the instance fields `this.timer`
and `this.timerResolution`, which are read by `timeTaken` (lines 41 and 43)
but never assigned anywhere in the class — the constructor only stores
`timer`/`timerResolution` on `this.options` (lines 15-21).  They are
therefore `none` (JavaScript `undefined`) at construction, while the values
of the options live in `optionsTimer`/`optionsTimerResolution`. -/
structure Ora where
  text : String
  color : Option String
  frames : List String
  interval : Nat
  streamIsTTY : Bool
  enabled : Bool
  id : Option Nat
  frameIndex : Nat
  startTime : Option Nat
  instTimer : Option Bool
  instTimerResolution : Option String
  optionsTimer : Bool
  optionsTimerResolution : String
deriving Repr, DecidableEq, Inhabited

/-- The constructor of `src/index.js` lines 8-38.  `win32` models
`process.platform === 'win32'` and `ci` models `Boolean(process.env.CI)`.
The only throw site is line 27: `this.spinner.frames === undefined`. -/
def Ora.create (win32 ci : Bool) (opts : Options) : Except String Ora :=
  let sp := resolveSpinner win32 opts.spinner
  match sp.framesOpt with
  | none => .error "Spinner must define `frames`"
  | some fs =>
    .ok {
      text := opts.text
      color := opts.color
      frames := fs
      interval := natOr opts.interval (natOr sp.intervalOpt 100)
      streamIsTTY := opts.streamIsTTY
      enabled := match opts.enabled with
        | some b => b
        | none => opts.streamIsTTY && !ci
      id := none
      frameIndex := 0
      startTime := none
      instTimer := none
      instTimerResolution := none
      optionsTimer := opts.timer
      optionsTimerResolution := opts.timerResolution }

/-- Extract the successfully constructed instance (used only to build
concrete example states from constructor calls that are known to succeed). -/
def oraOf (e : Except String Ora) : Ora :=
  match e with
  | .ok s => s
  | .error _ => default

/-- Whether a constructor call succeeded without throwing. -/
def oraOk (e : Except String Ora) : Bool :=
  match e with
  | .ok _ => true
  | .error _ => false

/-- Observable stream and timer side effects of the methods. -/
inductive Effect where
  | write (s : String)
  | clearLine
  | cursorTo (col : Nat)
  | hideCursor
  | showCursor
  | setIntervalTimer (id : Nat) (ms : Nat)
  | clearIntervalTimer (id : Option Nat)
deriving Repr, DecidableEq

/-- The text chunks written to the stream among a list of effects. -/
def writesOf (effs : List Effect) : List String :=
  effs.filterMap fun e =>
    match e with
    | .write s => some s
    | _ => none

/-- Method `timeTaken` of `src/index.js` lines 40-49.  The guard
`if (this.timer && this.startTime)` reads the never-assigned instance field
`this.timer` (`instTimer`) and the falsy-check on `this.startTime`
(a timestamp of `0` is falsy).  Inside, `this.timerResolution === 's'`
reads the equally never-assigned `instTimerResolution`. -/
def Ora.timeTaken (now : Nat) (s : Ora) : String :=
  match s.instTimer, s.startTime with
  | some true, some st =>
    if st ≠ 0 then
      if s.instTimerResolution = some "s" then
        " (" ++ toString ((now - st) / 1000) ++ "s)"
      else
        " (" ++ toString (now - st) ++ "ms)"
    else ""
  | _, _ => ""

/-- Modelled from the spec: the external pure text-coloring collaborator
(`chalk[color](frame)`).  The spec excludes its definition and no claim
depends on the styling bytes, so it is modelled as returning the text
content unchanged. -/
def chalkApply (color : String) (s : String) : String :=
  let _ := color
  s

/-- Method `frame` of `src/index.js` lines 50-61: take `frames[frameIndex]`,
optionally color it, advance `frameIndex` to `(frameIndex + 1) % frames.length`,
and return `frame + ' ' + this.text + this.timeTaken()`.  An out-of-range
index (possible only for an empty `frames` list, which the constructor
accepts) is modelled as the empty glyph; the claims only exercise non-empty
frame lists. -/
def Ora.frame (now : Nat) (s : Ora) : Ora × String :=
  let glyph := s.frames.getD s.frameIndex ""
  let styled := match s.color with
    | some c => chalkApply c glyph
    | none => glyph
  ({ s with frameIndex := (s.frameIndex + 1) % s.frames.length },
    styled ++ " " ++ s.text ++ Ora.timeTaken now s)

/-- Method `clear` of `src/index.js` lines 62-71: early return when `!this.enabled`;
otherwise set `startTime = Date.now()`, call `stream.clearLine()` and
`stream.cursorTo(0)`.  The stream's TTY-ness is not consulted. -/
def Ora.clear (now : Nat) (s : Ora) : Ora × List Effect :=
  if s.enabled then
    ({ s with startTime := some now }, [.clearLine, .cursorTo 0])
  else
    (s, [])

/-- Method `render` of `src/index.js` lines 72-77: `this.clear()` then
`this.stream.write(this.frame())`. -/
def Ora.render (now : Nat) (s : Ora) : Ora × List Effect :=
  let (s1, effs) := Ora.clear now s
  let (s2, fr) := Ora.frame now s1
  (s2, effs ++ [.write fr])

/-- Method `start` of `src/index.js` lines 78-93: `if (text) this.text = text`
(JavaScript truthiness: an empty string is ignored), set
`startTime = Date.now()`, then early return when `!this.enabled || this.id`;
otherwise hide the cursor, render once, and arm the interval timer.
`freshId` models the handle returned by `setInterval`. -/
def Ora.start (now : Nat) (textArg : Option String) (freshId : Nat) (s : Ora) :
    Ora × List Effect :=
  let s1 := match textArg with
    | some t => if t = "" then s else { s with text := t }
    | none => s
  let s2 := { s1 with startTime := some now }
  if !s2.enabled || s2.id.isSome then
    (s2, [])
  else
    let (s3, effs) := Ora.render now s2
    ({ s3 with id := some freshId },
      .hideCursor :: effs ++ [.setIntervalTimer freshId s3.interval])

/-- Method `stop` of `src/index.js` lines 94-106: early return when `!this.enabled`;
otherwise `clearInterval(this.id)`, `this.id = null`, `this.frameIndex = 0`,
`this.clear()`, show the cursor. -/
def Ora.stop (now : Nat) (s : Ora) : Ora × List Effect :=
  if s.enabled then
    let s1 := { s with id := none, frameIndex := 0 }
    let (s2, effs) := Ora.clear now s1
    (s2, .clearIntervalTimer s.id :: effs ++ [.showCursor])
  else
    (s, [])

/-- The argument record of `stopAndPersist`; `none` models an absent
property. -/
structure PersistOptions where
  symbol : Option String := none
  text : Option String := none
deriving Repr, DecidableEq

/-- Method `stopAndPersist` of `src/index.js` lines 131-146: `this.stop()` then
`this.stream.write(`$\x7boptions.symbol || ' '\x7d $\x7boptions.text || this.text\x7d$\x7bthis.timeTaken()\x7d\n`)`.
A falsy (absent or empty) `symbol` falls back to a single space, and the
template always inserts a separating space between the symbol slot and the
text. -/
def Ora.stopAndPersist (now : Nat) (popts : PersistOptions) (s : Ora) :
    Ora × List Effect :=
  let (s1, effs) := Ora.stop now s
  let line := strOr popts.symbol " " ++ " " ++ strOr popts.text s1.text
    ++ Ora.timeTaken now s1 ++ "\n"
  (s1, effs ++ [.write line])

/-- One public-API call on an instance, with the `Date.now()` value and any
fresh timer handle it observes. -/
inductive Op where
  | startOp (now : Nat) (textArg : Option String) (freshId : Nat)
  | stopOp (now : Nat)
  | clearOp (now : Nat)
  | renderOp (now : Nat)
  | frameOp (now : Nat)
  | persistOp (now : Nat) (popts : PersistOptions)
deriving Repr, DecidableEq

/-- The state after one API call (effects discarded). -/
def Ora.applyOp (s : Ora) (op : Op) : Ora :=
  match op with
  | .startOp now t i => (Ora.start now t i s).1
  | .stopOp now => (Ora.stop now s).1
  | .clearOp now => (Ora.clear now s).1
  | .renderOp now => (Ora.render now s).1
  | .frameOp now => (Ora.frame now s).1
  | .persistOp now p => (Ora.stopAndPersist now p s).1

/-- The state after a sequence of API calls. -/
def Ora.runOps (s : Ora) (ops : List Op) : Ora :=
  ops.foldl Ora.applyOp s

/-- One firing of the armed redraw interval: `setInterval(this.render.bind(this))`
invokes `render`; it can only fire while the interval is armed, i.e. while
`this.id` holds a handle (the source clears it with `clearInterval` and
nulls it in `stop`).  The source has no deferred-flush machinery, so ticks
are the only spontaneous events. -/
inductive TickStep : Ora → Ora → Prop where
  | tick (now : Nat) (s : Ora) (h : s.id.isSome) : TickStep s (Ora.render now s).1

/-- Concrete explicit spinner used by the example states. -/
def exSpinner : Spinner :=
  ⟨some ["a", "b", "c"], some 100⟩

/-- Concrete constructor options: enabled TTY instance with text `foo`. -/
def exOptions : Options :=
  { text := "foo", color := none, streamIsTTY := true, enabled := some true,
    spinner := .explicit exSpinner }

/-- Concrete enabled instance. -/
def exEnabled : Ora :=
  oraOf (Ora.create false false exOptions)

/-- Concrete disabled instance. -/
def exDisabled : Ora :=
  oraOf (Ora.create false false { exOptions with enabled := some false })

/-- Concrete instance that is enabled although its stream is not a TTY
(reachable through the public API by passing `enabled: true`). -/
def exEnabledNotTTY : Ora :=
  oraOf (Ora.create false false { exOptions with streamIsTTY := false })

/-- Concrete spinning instance: `exEnabled` after one `start()` call at
time 0 that received timer handle 1. -/
def exSpinning : Ora :=
  (Ora.start 0 none 1 exEnabled).1

/-- The thrown message of a failed constructor call, if any. -/
def createError (e : Except String Ora) : Option String :=
  match e with
  | .error m => some m
  | .ok _ => none

example : exEnabled.enabled = true := by decide
example : exEnabled.frameIndex = 0 := by decide
example : (Ora.start 0 none 1 exEnabled).1.id = some 1 := by decide
example : writesOf (Ora.stopAndPersist 0 ⟨some "@", some "all done"⟩ exDisabled).2
    = ["@ all done\n"] := by decide
example : writesOf (Ora.stopAndPersist 0 ⟨some "", some "all done"⟩ exDisabled).2
    = ["  all done\n"] := by decide

/-- Modelled from the spec: the display width of one character, used by the
Geometry Calculator, which is implemented outside `src/` (only its tests are
present).  Characters that occupy two terminal cells (wide CJK, Hangul,
fullwidth forms, common emoji) count 2, all others count 1. -/
def charWidth (c : Char) : Nat :=
  let n := c.toNat
  if (0x1100 ≤ n && n ≤ 0x115F) ||
     (0x2E80 ≤ n && n ≤ 0x303E) ||
     (0x3041 ≤ n && n ≤ 0x33FF) ||
     (0x3400 ≤ n && n ≤ 0x4DBF) ||
     (0x4E00 ≤ n && n ≤ 0x9FFF) ||
     (0xA000 ≤ n && n ≤ 0xA4CF) ||
     (0xAC00 ≤ n && n ≤ 0xD7A3) ||
     (0xF900 ≤ n && n ≤ 0xFAFF) ||
     (0xFE30 ≤ n && n ≤ 0xFE4F) ||
     (0xFF00 ≤ n && n ≤ 0xFF60) ||
     (0xFFE0 ≤ n && n ≤ 0xFFE6) ||
     (0x1F300 ≤ n && n ≤ 0x1F64F) ||
     (0x1F900 ≤ n && n ≤ 0x1F9FF) ||
     (0x20000 ≤ n && n ≤ 0x3FFFD) then 2 else 1

/-- Modelled from the spec: the on-screen display width of one logical line,
the sum of the display widths of its characters. -/
def displayWidth (s : String) : Nat :=
  (s.data.map charWidth).sum

/-- Modelled from the spec: split a character list on line-break characters;
the result always has one more part than there are line breaks (in
particular it is never empty). -/
def splitCharsOnNewline : List Char → List (List Char)
  | [] => [[]]
  | c :: cs =>
    let rest := splitCharsOnNewline cs
    if c = '\n' then [] :: rest
    else
      match rest with
      | r :: rs => (c :: r) :: rs
      | [] => [[c]]

/-- Modelled from the spec: split a content block on explicit line breaks
into its logical lines (as JavaScript `content.split('\n')`). -/
def splitLines (content : String) : List String :=
  (splitCharsOnNewline content.data).map (fun l => String.mk l)

/-- Modelled from the spec: the number of terminal rows one logical line
occupies.  `columns = none` models an unknown column count; a known count of
`0` and an unknown count are both treated as "no wrapping" (one row), and
otherwise the line wraps into `ceil((indent + displayWidth) / columns)` rows
with a floor of one row even for an empty logical line. -/
def rowsForLine (indent : Nat) (columns : Option Nat) (line : String) : Nat :=
  match columns with
  | none => 1
  | some c => if c = 0 then 1 else max 1 ((indent + displayWidth line + c - 1) / c)

/-- Modelled from the spec: `rowsFor(content, indent, columns)` of the
Geometry Calculator, which is implemented outside `src/`.  Empty content
occupies zero rows; otherwise the row counts of the logical lines are
summed. -/
def rowsFor (content : String) (indent : Nat) (columns : Option Nat) : Nat :=
  if content = "" then 0
  else ((splitLines content).map (rowsForLine indent columns)).sum

/-- Modelled from the spec: total rows of a block already split into logical
lines (the Overflow Guard works on logical lines). -/
def rowsOfLines (indent : Nat) (columns : Option Nat) (ls : List String) : Nat :=
  (ls.map (rowsForLine indent columns)).sum

/-- Modelled from the spec: the fixed truncation notice appended by the
Overflow Guard (the literal text is the one asserted by `src/test.js`). -/
def truncationNotice : String :=
  "(content truncated to fit terminal)"

/-- Modelled from the spec: the maximal prefix of logical lines whose total
row count fits within `budget` rows. -/
def takeRows (budget : Nat) (rowOf : String → Nat) : List String → List String
  | [] => []
  | l :: ls =>
    if rowOf l ≤ budget then l :: takeRows (budget - rowOf l) rowOf ls else []

/-- Modelled from the spec: `fit(content, maxRows)` of the Overflow Guard,
which is implemented outside `src/`.  `maxRows = none` models an unknown
terminal row count.  Content passes through unchanged when the row count is
unknown, when it already fits, or when `maxRows < 2` (no room for a notice);
otherwise the first `maxRows - 1` rows worth of lines are kept and the fixed
truncation notice is appended as one additional trailing row. -/
def fit (ls : List String) (indent : Nat) (columns : Option Nat)
    (maxRows : Option Nat) : List String :=
  match maxRows with
  | none => ls
  | some m =>
    if rowsOfLines indent columns ls ≤ m then ls
    else if m < 2 then ls
    else takeRows (m - 1) (rowsForLine indent columns) ls ++ [truncationNotice]

example : rowsFor "" 0 (some 80) = 0 := by decide
example : rowsFor "foo" 0 (some 80) = 1 := by decide
example : rowsFor "foo\n\nbar" 0 (some 80) = 3 := by decide
example : rowsFor "000000000000000" 15 (some 20) = 2 := by decide
example : rowsFor "abc" 0 none = 1 := by decide
example : rowsFor "abc" 0 (some 0) = 1 := by decide
example : rowsFor "你好" 0 (some 4) = 1 := by decide
example : rowsFor "你好" 0 (some 2) = 2 := by decide
example : fit ["Line 1", "Line 2", "Line 3"] 0 (some 80) (some 1)
    = ["Line 1", "Line 2", "Line 3"] := by decide
example : fit ["Line 1", "Line 2", "Line 3"] 0 (some 80) (some 2)
    = ["Line 1", truncationNotice] := by decide
example : fit ["Line 1", "Line 2", "Line 3"] 0 (some 80) none
    = ["Line 1", "Line 2", "Line 3"] := by decide

/-! Helper lemmas about the `Ora` methods. -/

lemma clear_fst (now : Nat) (s : Ora) :
    (Ora.clear now s).1 = if s.enabled then { s with startTime := some now } else s := by
  unfold Ora.clear
  split <;> simp_all

lemma clear_snd (now : Nat) (s : Ora) :
    (Ora.clear now s).2 = if s.enabled then [.clearLine, .cursorTo 0] else [] := by
  unfold Ora.clear
  split <;> simp_all

lemma frame_fst (now : Nat) (s : Ora) :
    (Ora.frame now s).1 = { s with frameIndex := (s.frameIndex + 1) % s.frames.length } := rfl

lemma render_fst (now : Nat) (s : Ora) :
    (Ora.render now s).1 = (Ora.frame now (Ora.clear now s).1).1 := by
  unfold Ora.render
  cases h : Ora.clear now s
  cases h2 : Ora.frame now (Ora.clear now s).1
  simp_all

lemma stop_fst (now : Nat) (s : Ora) :
    (Ora.stop now s).1 =
      if s.enabled then { s with id := none, frameIndex := 0, startTime := some now }
      else s := by
  cases h : s.enabled <;> simp [Ora.stop, Ora.clear, h]

lemma stop_no_writes (now : Nat) (s : Ora) :
    writesOf (Ora.stop now s).2 = [] := by
  cases h : s.enabled <;> simp [Ora.stop, Ora.clear, h, writesOf]

lemma timeTaken_of_instTimer_none (now : Nat) (s : Ora) (h : s.instTimer = none) :
    Ora.timeTaken now s = "" := by
  unfold Ora.timeTaken
  rw [h]

lemma persist_write (now : Nat) (p : PersistOptions) (s : Ora)
    (h : s.instTimer = none) :
    writesOf (Ora.stopAndPersist now p s).2
      = [strOr p.symbol " " ++ " " ++ strOr p.text s.text ++ "\n"] := by
  unfold Ora.stopAndPersist
  cases hst : Ora.stop now s with
  | mk s1 effs =>
    have htext : s1.text = s.text := by
      have := stop_fst now s
      rw [hst] at this
      split at this <;> simp_all
    have htimer : s1.instTimer = none := by
      have := stop_fst now s
      rw [hst] at this
      split at this <;> simp_all
    have hw : writesOf effs = [] := by
      have := stop_no_writes now s
      rw [hst] at this
      exact this
    simp [writesOf, List.filterMap_append] at hw ⊢
    rw [timeTaken_of_instTimer_none now s1 htimer]
    simp_all [writesOf]

/-- C3 (amended): for every outcome argument, `stopAndPersist` writes
exactly one final line, terminated by a line break, of the form
`<symbol> <text><elapsedAnnotation>\n`, where a falsy (absent or
empty-string) symbol is replaced by a single-space fallback and a
separating space is always inserted between the symbol slot and the text;
hence with an empty-string symbol the text is preceded by two spaces
rather than by no separator.  The hypothesis `instTimer = none` holds for
every constructed instance (the field is never assigned), making the
elapsed annotation empty. -/
theorem C3_persist_line_format (now : Nat) (p : PersistOptions) (s : Ora)
    (h : s.instTimer = none) :
    ∃ pre, writesOf (Ora.stopAndPersist now p s).2 = [pre ++ "\n"] ∧
      pre = strOr p.symbol " " ++ " " ++ strOr p.text s.text ∧
      (p.symbol = some "" → pre = " " ++ " " ++ strOr p.text s.text) := by
  refine ⟨strOr p.symbol " " ++ " " ++ strOr p.text s.text, ?_, rfl, ?_⟩
  · rw [persist_write now p s h]
  · intro h2
    rw [h2]
    simp [strOr]

/-- C3, witness: the format theorem applied to the concrete scenario of the
spec, `stopAndPersist({symbol:"@", text:"all done"})`. -/
theorem C3_persist_line_format_witness :
    ∃ pre,
      writesOf (Ora.stopAndPersist 0 ⟨some "@", some "all done"⟩ exDisabled).2
        = [pre ++ "\n"] ∧
      pre = strOr (some "@") " " ++ " " ++ strOr (some "all done") exDisabled.text ∧
      ((some "@" : Option String) = some "" →
        pre = " " ++ " " ++ strOr (some "all done") exDisabled.text) :=
  C3_persist_line_format 0 ⟨some "@", some "all done"⟩ exDisabled (by decide)

/-- C3, counterexample: with the empty-string symbol the single written
line is `"  all done\n"` — a fallback space plus the separating space
before the text — not the separator-free `"all done\n"` the claim
describes. -/
theorem C3_empty_symbol_counterexample :
    writesOf (Ora.stopAndPersist 0 ⟨some "", some "all done"⟩ exDisabled).2
      = ["  all done\n"] ∧ "  all done\n" ≠ "all done\n" := by
  decide

/-- C4: evaluation of the code at the failing input.  A freshly constructed
instance has `frameIndex = 0`, not `-1` as the claim (and the repository's
own tests) state; the constructor is the only place the frame set can be
installed, so there is also no frame-set replacement that could reset the
index. -/
theorem C4_frameIndex_initially_zero :
    (oraOf (Ora.create false false exOptions)).frameIndex = 0 ∧
    ((oraOf (Ora.create false false exOptions)).frameIndex : Int) ≠ -1 := by
  decide

/-- C5 (amended): a second `start()` call while already spinning produces
no output and keeps the same timer handle, but it is not a complete no-op:
it always overwrites `startTime` with the current time and, when a
non-empty text argument is supplied, also overwrites `text`. -/
theorem C5_second_start_same_handle_no_output (now : Nat) (t : Option String)
    (freshId : Nat) (s : Ora) (hid : s.id.isSome = true) :
    (Ora.start now t freshId s).2 = [] ∧
    (Ora.start now t freshId s).1.id = s.id ∧
    (Ora.start now t freshId s).1 =
      { s with startTime := some now,
               text := match t with
                 | some v => if v = "" then s.text else v
                 | none => s.text } := by
  unfold Ora.start
  cases t with
  | none => simp [hid]
  | some v => by_cases hv : v = "" <;> simp [hid, hv]

/-- C5, witness: the amended theorem applied to a concrete spinning
instance. -/
theorem C5_second_start_witness :
    (Ora.start 5 none 2 exSpinning).2 = [] ∧
    (Ora.start 5 none 2 exSpinning).1.id = exSpinning.id ∧
    (Ora.start 5 none 2 exSpinning).1 =
      { exSpinning with startTime := some 5, text := exSpinning.text } :=
  C5_second_start_same_handle_no_output 5 none 2 exSpinning (by decide)

/-- C5, counterexample: a second `start()` call at time 5 on an instance
started at time 0 changes the state — `startTime` moves from `some 0` to
`some 5` — so `start` is not state-preserving while spinning. -/
theorem C5_counterexample :
    exSpinning.id = some 1 ∧ exSpinning.startTime = some 0 ∧
    (Ora.start 5 none 2 exSpinning).1.startTime = some 5 ∧
    (Ora.start 5 none 2 exSpinning).1 ≠ exSpinning := by
  decide

/-- C7: evaluation of the code at the failing input.  Construction with an
explicit spinner whose `frames` is the empty array is accepted without any
error (the only validation is `frames === undefined`), contradicting the
claim and the repository's own tests, which demand a non-empty `frames`
validation error; a spinner object lacking `frames` entirely does raise
the error. -/
theorem C7_empty_frames_accepted :
    oraOk (Ora.create false false
      { exOptions with spinner := .explicit ⟨some [], none⟩ }) = true ∧
    (oraOf (Ora.create false false
      { exOptions with spinner := .explicit ⟨some [], none⟩ })).frames = [] ∧
    createError (Ora.create false false
      { exOptions with spinner := .explicit ⟨none, none⟩ })
      = some "Spinner must define `frames`" := by
  decide

/-- C8: evaluation of the code at the failing input.  On a disabled
instance `start()` performs no effect at all — in particular it writes no
`<indent-spaces><fallback-glyph> <text>\n` line — contradicting the claim
and the repository's own tests, which expect the plain line `- foo\n`. -/
theorem C8_disabled_start_writes_nothing :
    exDisabled.enabled = false ∧
    (Ora.start 0 none 1 exDisabled).2 = [] ∧
    (Ora.start 0 none 1 exDisabled).1.id = none := by
  decide

/-- C9 (amended): `clear()` is a no-op exactly when the indicator is
disabled; the TTY-ness of the stream is never consulted, and when the
indicator is enabled `clear()` emits the clear-line and cursor effects and
overwrites `startTime` with the current time even if the stream is not a
terminal. -/
theorem C9_clear_noop_iff_disabled (now : Nat) (s : Ora) :
    (s.enabled = false → Ora.clear now s = (s, [])) ∧
    (s.enabled = true →
      (Ora.clear now s).2 = [Effect.clearLine, Effect.cursorTo 0] ∧
      (Ora.clear now s).1 = { s with startTime := some now }) := by
  constructor <;> intro h <;> simp [Ora.clear, h]

/-- C9, witness: the amended theorem applied to a concrete disabled
instance. -/
theorem C9_clear_noop_iff_disabled_witness :
    Ora.clear 7 exDisabled = (exDisabled, []) :=
  (C9_clear_noop_iff_disabled 7 exDisabled).1 (by decide)

/-- C9, counterexample: an instance whose stream is not a TTY but which was
explicitly enabled (`enabled: true`) still clears the line, moves the
cursor and mutates `startTime`, so `clear()` is not a no-op for a
non-terminal stream. -/
theorem C9_clear_not_noop_counterexample :
    exEnabledNotTTY.streamIsTTY = false ∧
    exEnabledNotTTY.enabled = true ∧
    (Ora.clear 7 exEnabledNotTTY).2 = [Effect.clearLine, Effect.cursorTo 0] ∧
    (Ora.clear 7 exEnabledNotTTY).1 ≠ exEnabledNotTTY := by
  decide

/-! Preservation lemmas for the reachability invariants. -/

lemma applyOp_preserves (s : Ora) (op : Op) :
    (Ora.applyOp s op).instTimer = s.instTimer ∧
    (Ora.applyOp s op).enabled = s.enabled := by
  cases op with
  | startOp nw t i =>
    cases t with
    | none =>
      cases h : s.enabled <;> cases hid : s.id <;>
        simp [Ora.applyOp, Ora.start, Ora.render, Ora.clear, Ora.frame, h, hid]
    | some v =>
      by_cases hv : v = "" <;> cases h : s.enabled <;> cases hid : s.id <;>
        simp [Ora.applyOp, Ora.start, Ora.render, Ora.clear, Ora.frame, h, hid, hv]
  | stopOp nw =>
    cases h : s.enabled <;> simp [Ora.applyOp, Ora.stop, Ora.clear, h]
  | clearOp nw =>
    cases h : s.enabled <;> simp [Ora.applyOp, Ora.clear, h]
  | renderOp nw =>
    cases h : s.enabled <;> simp [Ora.applyOp, Ora.render, Ora.clear, Ora.frame, h]
  | frameOp nw =>
    simp [Ora.applyOp, Ora.frame]
  | persistOp nw p =>
    cases h : s.enabled <;>
      simp [Ora.applyOp, Ora.stopAndPersist, Ora.stop, Ora.clear, h]

lemma applyOp_id_enabled (s : Ora) (op : Op)
    (h : s.id.isSome = true → s.enabled = true) :
    (Ora.applyOp s op).id.isSome = true → (Ora.applyOp s op).enabled = true := by
  cases op with
  | startOp nw t i =>
    cases t with
    | none =>
      cases he : s.enabled <;> cases hid : s.id <;>
        simp_all [Ora.applyOp, Ora.start, Ora.render, Ora.clear, Ora.frame, he, hid]
    | some v =>
      by_cases hv : v = "" <;> cases he : s.enabled <;> cases hid : s.id <;>
        simp_all [Ora.applyOp, Ora.start, Ora.render, Ora.clear, Ora.frame, he, hid, hv]
  | stopOp nw =>
    cases he : s.enabled <;> simp_all [Ora.applyOp, Ora.stop, Ora.clear, he]
  | clearOp nw =>
    cases he : s.enabled <;> simp_all [Ora.applyOp, Ora.clear, he]
  | renderOp nw =>
    cases he : s.enabled <;>
      simp_all [Ora.applyOp, Ora.render, Ora.clear, Ora.frame, he]
  | frameOp nw =>
    simp_all [Ora.applyOp, Ora.frame]
  | persistOp nw p =>
    cases he : s.enabled <;>
      simp_all [Ora.applyOp, Ora.stopAndPersist, Ora.stop, Ora.clear, he]

lemma runOps_instTimer (s : Ora) (ops : List Op) :
    (Ora.runOps s ops).instTimer = s.instTimer := by
  induction ops generalizing s with
  | nil => rfl
  | cons op ops ih =>
    show (Ora.runOps (Ora.applyOp s op) ops).instTimer = s.instTimer
    rw [ih, (applyOp_preserves s op).1]

lemma runOps_id_enabled (s : Ora) (ops : List Op)
    (h : s.id.isSome = true → s.enabled = true) :
    (Ora.runOps s ops).id.isSome = true → (Ora.runOps s ops).enabled = true := by
  induction ops generalizing s with
  | nil => exact h
  | cons op ops ih =>
    exact ih (Ora.applyOp s op) (applyOp_id_enabled s op h)

lemma create_fields (win32 ci : Bool) (opts : Options) (s : Ora)
    (h : Ora.create win32 ci opts = .ok s) :
    s.id = none ∧ s.instTimer = none := by
  unfold Ora.create at h
  split at h
  all_goals
    (cases hf : (resolveSpinner win32 opts.spinner).framesOpt with
     | none => simp [hf] at h
     | some fs =>
       simp only [hf, Except.ok.injEq] at h
       subst h
       exact ⟨rfl, rfl⟩)

/-- C6: every spinning indicator instance reachable through the public API
is enabled, so `stop()` clears the interval handle, and since the redraw
tick can only fire while the handle is armed, no redraw fires after
`stop()` returns.  The source has no deferred-flush machinery at all, so
the tick is the only spontaneous event and the deferred-flush half of the
claim holds vacuously. -/
theorem C6_no_tick_after_stop (win32 ci : Bool) (opts : Options)
    (ops : List Op) (s0 : Ora) (now : Nat)
    (h0 : Ora.create win32 ci opts = .ok s0)
    (hspin : (Ora.runOps s0 ops).id.isSome = true) :
    (Ora.stop now (Ora.runOps s0 ops)).1.id = none ∧
    ∀ s2, ¬ TickStep (Ora.stop now (Ora.runOps s0 ops)).1 s2 := by
  obtain ⟨hid0, hti0⟩ := create_fields win32 ci opts s0 h0
  have hbase : s0.id.isSome = true → s0.enabled = true := by
    intro hs
    rw [hid0] at hs
    simp at hs
  have hen : (Ora.runOps s0 ops).enabled = true :=
    runOps_id_enabled s0 ops hbase hspin
  have hstop : (Ora.stop now (Ora.runOps s0 ops)).1.id = none := by
    rw [stop_fst, hen]
    simp
  refine ⟨hstop, ?_⟩
  intro s2 hstep
  cases hstep with
  | tick nw s h => rw [hstop] at h; simp at h

/-- C6, witness: the theorem applied to a concrete instance that was
started once and then stopped. -/
theorem C6_no_tick_after_stop_witness :
    (Ora.stop 5 (Ora.runOps exEnabled [Op.startOp 0 none 1])).1.id = none ∧
    ∀ s2, ¬ TickStep (Ora.stop 5 (Ora.runOps exEnabled [Op.startOp 0 none 1])).1 s2 :=
  C6_no_tick_after_stop false false exOptions [Op.startOp 0 none 1] exEnabled 5
    rfl (by decide)

/-- C10: for every construction configuration — including one with the
`timer` option set to `true` — and every sequence of API calls, the
never-assigned instance field read by `timeTaken` stays `undefined`, so
`timeTaken` returns the empty string, every composed frame is exactly
`<glyph> <text>` with no elapsed annotation, and every persisted line is
exactly `<symbol> <text>\n` with no elapsed annotation. -/
theorem C10_timer_never_annotates (win32 ci : Bool) (opts : Options)
    (ops : List Op) (s0 : Ora) (now : Nat) (p : PersistOptions)
    (h0 : Ora.create win32 ci opts = .ok s0) :
    Ora.timeTaken now (Ora.runOps s0 ops) = "" ∧
    (∃ glyph, (Ora.frame now (Ora.runOps s0 ops)).2
      = glyph ++ " " ++ (Ora.runOps s0 ops).text) ∧
    writesOf (Ora.stopAndPersist now p (Ora.runOps s0 ops)).2
      = [strOr p.symbol " " ++ " " ++ strOr p.text (Ora.runOps s0 ops).text ++ "\n"] := by
  obtain ⟨hid0, hti0⟩ := create_fields win32 ci opts s0 h0
  have hti : (Ora.runOps s0 ops).instTimer = none := by
    rw [runOps_instTimer, hti0]
  refine ⟨timeTaken_of_instTimer_none now _ hti, ?_, persist_write now p _ hti⟩
  refine ⟨match (Ora.runOps s0 ops).color with
    | some c => chalkApply c
        ((Ora.runOps s0 ops).frames.getD (Ora.runOps s0 ops).frameIndex "")
    | none => (Ora.runOps s0 ops).frames.getD (Ora.runOps s0 ops).frameIndex "", ?_⟩
  unfold Ora.frame
  rw [timeTaken_of_instTimer_none now _ hti]
  simp [String.append_empty]

/-- C10, witness: the theorem applied to an instance constructed with
`timer: true` that was started and persisted. -/
theorem C10_timer_never_annotates_witness :
    Ora.timeTaken 9 (Ora.runOps (oraOf (Ora.create false false
        { exOptions with timer := true })) [Op.startOp 0 none 1]) = "" ∧
    (∃ glyph, (Ora.frame 9 (Ora.runOps (oraOf (Ora.create false false
        { exOptions with timer := true })) [Op.startOp 0 none 1])).2
      = glyph ++ " " ++ (Ora.runOps (oraOf (Ora.create false false
        { exOptions with timer := true })) [Op.startOp 0 none 1]).text) ∧
    writesOf (Ora.stopAndPersist 9 ⟨some "@", some "done"⟩
        (Ora.runOps (oraOf (Ora.create false false
          { exOptions with timer := true })) [Op.startOp 0 none 1])).2
      = [strOr (some "@") " " ++ " " ++ strOr (some "done")
          (Ora.runOps (oraOf (Ora.create false false
            { exOptions with timer := true })) [Op.startOp 0 none 1]).text ++ "\n"] :=
  C10_timer_never_annotates false false { exOptions with timer := true }
    [Op.startOp 0 none 1] (oraOf (Ora.create false false
      { exOptions with timer := true })) 9 ⟨some "@", some "done"⟩ rfl

/-! Helper lemmas for the geometry calculator and overflow guard. -/

lemma splitCharsOnNewline_ne_nil (cs : List Char) : splitCharsOnNewline cs ≠ [] := by
  induction cs with
  | nil => simp [splitCharsOnNewline]
  | cons c cs ih =>
    unfold splitCharsOnNewline
    split
    · simp
    · cases h : splitCharsOnNewline cs with
      | nil => simp
      | cons r rs => simp

lemma splitLines_ne_nil (content : String) : splitLines content ≠ [] := by
  unfold splitLines
  simp [splitCharsOnNewline_ne_nil]

lemma rowsForLine_pos (indent : Nat) (columns : Option Nat) (line : String) :
    1 ≤ rowsForLine indent columns line := by
  unfold rowsForLine
  cases columns with
  | none => simp
  | some c =>
    by_cases hc : c = 0
    · simp [hc]
    · simp [hc]

lemma sum_rows_pos (indent : Nat) (columns : Option Nat) (ls : List String)
    (h : ls ≠ []) : 1 ≤ rowsOfLines indent columns ls := by
  cases ls with
  | nil => simp at h
  | cons l ls =>
    unfold rowsOfLines
    simp only [List.map_cons, List.sum_cons]
    have := rowsForLine_pos indent columns l
    omega

lemma rowsOfLines_none (indent : Nat) (ls : List String) :
    rowsOfLines indent none ls = ls.length := by
  induction ls with
  | nil => rfl
  | cons l ls ih =>
    have h1 : rowsForLine indent none l = 1 := rfl
    simp only [rowsOfLines, List.map_cons, List.sum_cons, List.length_cons,
      h1] at ih ⊢
    omega

lemma rowsOfLines_zero_cols (indent : Nat) (ls : List String) :
    rowsOfLines indent (some 0) ls = ls.length := by
  induction ls with
  | nil => rfl
  | cons l ls ih =>
    have h1 : rowsForLine indent (some 0) l = 1 := rfl
    simp only [rowsOfLines, List.map_cons, List.sum_cons, List.length_cons,
      h1] at ih ⊢
    omega

lemma ceil_le_mul (a c : Nat) (hc : 0 < c) (ha : 1 ≤ a) :
    a ≤ ((a + c - 1) / c) * c := by
  have hdm := Nat.div_add_mod (a + c - 1) c
  have hm : (a + c - 1) % c < c := Nat.mod_lt _ hc
  rw [Nat.mul_comm]
  generalize hq : (a + c - 1) / c = q at hdm
  generalize hmm : (a + c - 1) % c = m at hdm hm
  generalize hcq : c * q = cq at hdm ⊢
  omega

lemma ceil_min (a c k : Nat) (hc : 0 < c) (hk : a ≤ k * c) :
    (a + c - 1) / c ≤ k := by
  rw [Nat.div_le_iff_le_mul_add_pred hc]
  rw [Nat.mul_comm] at hk
  generalize hck : c * k = ck at hk ⊢
  omega

lemma rowsForLine_ceil_spec (indent c : Nat) (line : String) (hc : 0 < c) :
    indent + displayWidth line ≤ rowsForLine indent (some c) line * c ∧
    ∀ k, 1 ≤ k → indent + displayWidth line ≤ k * c →
      rowsForLine indent (some c) line ≤ k := by
  have hcne : ¬ c = 0 := Nat.pos_iff_ne_zero.mp hc
  simp only [rowsForLine, if_neg hcne]
  constructor
  · rcases Nat.eq_zero_or_pos (indent + displayWidth line) with ha | ha
    · rw [ha]
      exact Nat.zero_le _
    · have hq1 : 1 ≤ (indent + displayWidth line + c - 1) / c := by
        rw [Nat.one_le_div_iff hc]
        omega
      rw [Nat.max_eq_right hq1]
      exact ceil_le_mul _ c hc ha
  · intro k hk1 hk
    exact Nat.max_le.mpr ⟨hk1, ceil_min _ c k hc hk⟩

lemma takeRows_sum_le (f : String → Nat) (budget : Nat) (ls : List String) :
    ((takeRows budget f ls).map f).sum ≤ budget := by
  induction ls generalizing budget with
  | nil => simp [takeRows]
  | cons l ls ih =>
    unfold takeRows
    split
    · rename_i hle
      simp only [List.map_cons, List.sum_cons]
      have := ih (budget - f l)
      omega
    · simp

/-- C1: the geometry calculation `rowsFor(content, indent, columns)` sums,
over the logical lines of `content` (split on explicit line breaks), the
true ceiling of `(indent + displayWidth(line)) / columns` with a floor of
one row per line — formally, the per-line row count is the least `k ≥ 1`
with `indent + displayWidth(line) ≤ k * columns` — counting double-width
glyphs at display width 2; it is zero exactly for empty content (hence
at least 1 for non-empty content), and a column count of 0 or an unknown
column count yields one row per logical line with no division involved. -/
theorem C1_rowsFor_geometry (content line : String) (indent c : Nat) :
    (rowsFor content indent (some c) = 0 ↔ content = "") ∧
    (rowsFor content indent none = 0 ↔ content = "") ∧
    (content ≠ "" →
      rowsFor content indent (some c)
        = rowsOfLines indent (some c) (splitLines content) ∧
      rowsFor content indent none = (splitLines content).length ∧
      rowsFor content indent (some 0) = (splitLines content).length) ∧
    1 ≤ rowsForLine indent (some c) line ∧
    (0 < c →
      indent + displayWidth line ≤ rowsForLine indent (some c) line * c ∧
      ∀ k, 1 ≤ k → indent + displayWidth line ≤ k * c →
        rowsForLine indent (some c) line ≤ k) := by
  have hsplit := splitLines_ne_nil content
  refine ⟨?_, ?_, ?_, rowsForLine_pos indent (some c) line,
    fun hc => rowsForLine_ceil_spec indent c line hc⟩
  · constructor
    · intro h0
      by_contra hne
      have hpos := sum_rows_pos indent (some c) (splitLines content) hsplit
      unfold rowsFor at h0
      rw [if_neg hne] at h0
      unfold rowsOfLines at hpos
      omega
    · intro h
      simp [rowsFor, h]
  · constructor
    · intro h0
      by_contra hne
      have hpos := sum_rows_pos indent none (splitLines content) hsplit
      unfold rowsFor at h0
      rw [if_neg hne] at h0
      unfold rowsOfLines at hpos
      omega
    · intro h
      simp [rowsFor, h]
  · intro hne
    refine ⟨?_, ?_, ?_⟩
    · unfold rowsFor rowsOfLines
      rw [if_neg hne]
    · unfold rowsFor
      rw [if_neg hne]
      show rowsOfLines indent none (splitLines content) = _
      exact rowsOfLines_none indent (splitLines content)
    · unfold rowsFor
      rw [if_neg hne]
      show rowsOfLines indent (some 0) (splitLines content) = _
      exact rowsOfLines_zero_cols indent (splitLines content)

/-- C1, witness: the geometry theorem applied to the wrapped-line scenario
of the repository's tests — 15 columns of text with indent 15 on a
20-column terminal. -/
theorem C1_rowsFor_geometry_witness :
    rowsFor "000000000000000" 15 (some 20)
      = rowsOfLines 15 (some 20) (splitLines "000000000000000") ∧
    rowsFor "000000000000000" 15 none = (splitLines "000000000000000").length ∧
    rowsFor "000000000000000" 15 (some 0) = (splitLines "000000000000000").length :=
  (C1_rowsFor_geometry "000000000000000" "x" 15 20).2.2.1 (by decide)

/-- C2: the overflow guard `fit(content, maxRows)` passes content through
unchanged when the terminal row count is unknown, when the content already
fits, or when `maxRows < 2` (no room for a notice even though the content
overflows); when the row count exceeds `maxRows ≥ 2` it keeps exactly the
first `maxRows − 1` rows worth of logical lines, appends the fixed
truncation notice as one additional trailing row, and the result never
exceeds `maxRows` rows (counting the notice as the one trailing row the
spec assigns it). -/
theorem C2_fit_overflow_guard (ls : List String) (indent : Nat)
    (columns : Option Nat) (m : Nat) :
    (fit ls indent columns none = ls) ∧
    (rowsOfLines indent columns ls ≤ m → fit ls indent columns (some m) = ls) ∧
    (m < 2 → fit ls indent columns (some m) = ls) ∧
    (m < rowsOfLines indent columns ls → 2 ≤ m →
      fit ls indent columns (some m)
        = takeRows (m - 1) (rowsForLine indent columns) ls ++ [truncationNotice] ∧
      rowsOfLines indent columns
          (takeRows (m - 1) (rowsForLine indent columns) ls) + 1 ≤ m ∧
      (fit ls indent columns (some m)).getLast? = some truncationNotice) := by
  refine ⟨rfl, ?_, ?_, ?_⟩
  · intro h
    show (if rowsOfLines indent columns ls ≤ m then ls
      else if m < 2 then ls
      else takeRows (m - 1) (rowsForLine indent columns) ls
        ++ [truncationNotice]) = ls
    rw [if_pos h]
  · intro h
    show (if rowsOfLines indent columns ls ≤ m then ls
      else if m < 2 then ls
      else takeRows (m - 1) (rowsForLine indent columns) ls
        ++ [truncationNotice]) = ls
    split <;> rfl
  · intro hgt h2
    have hnle : ¬ rowsOfLines indent columns ls ≤ m := by omega
    have hnlt : ¬ m < 2 := by omega
    have heq : fit ls indent columns (some m)
        = takeRows (m - 1) (rowsForLine indent columns) ls ++ [truncationNotice] := by
      show (if rowsOfLines indent columns ls ≤ m then ls
        else if m < 2 then ls
        else takeRows (m - 1) (rowsForLine indent columns) ls
          ++ [truncationNotice]) = _
      rw [if_neg hnle, if_neg hnlt]
    have hsum : rowsOfLines indent columns
        (takeRows (m - 1) (rowsForLine indent columns) ls) ≤ m - 1 := by
      show ((takeRows (m - 1) (rowsForLine indent columns) ls).map
        (rowsForLine indent columns)).sum ≤ m - 1
      exact takeRows_sum_le (rowsForLine indent columns) (m - 1) ls
    refine ⟨heq, by omega, ?_⟩
    rw [heq]
    simp

/-- C2, witness: the overflow-guard theorem applied to the test scenario of
three one-row lines on a two-row terminal. -/
theorem C2_fit_overflow_guard_witness :
    fit ["Line 1", "Line 2", "Line 3"] 0 (some 80) (some 2)
      = takeRows 1 (rowsForLine 0 (some 80)) ["Line 1", "Line 2", "Line 3"]
        ++ [truncationNotice] ∧
    rowsOfLines 0 (some 80)
        (takeRows 1 (rowsForLine 0 (some 80)) ["Line 1", "Line 2", "Line 3"])
      + 1 ≤ 2 ∧
    (fit ["Line 1", "Line 2", "Line 3"] 0 (some 80) (some 2)).getLast?
      = some truncationNotice :=
  (C2_fit_overflow_guard ["Line 1", "Line 2", "Line 3"] 0 (some 80) 2).2.2.2
    (by decide) (by decide)
